import Mathlib

/-!
Shallow embedding of the SSM command orchestration module
(package `awstools`, file with `waitForTargetInstances`,
`waitForCommandInvocations`, `printCommandOutput`, `RunCommand`,
`GetCommand`).

External AWS calls are abstracted as environments supplying, per polling
iteration, the response (or error) the corresponding API call would
return; everything the Go code computes from those responses is
translated directly.
-/

namespace Awstools

/-! ## Constants (Go: top of file) -/

/-- Go: `const sleepTime = 10` (seconds between poll attempts). -/
def sleepTime : Nat := 10

/-- Go: `const waitTimeout = 600` (readiness wait budget, seconds). -/
def waitTimeout : Nat := 600

/-- Go: `const maxLogMsgSize = 65536` (log chunk size, bytes). -/
def maxLogMsgSize : Nat := 65536

/-- Go: `var ec2FilterInstanceId = "instance-id"`. -/
def ec2FilterInstanceId : String := "instance-id"

/-- Go: `var ec2FilterInstanceStateName = "instance-state-name"`. -/
def ec2FilterInstanceStateName : String := "instance-state-name"

/-- Go: `var ssmTargetInstanceIds = "InstanceIds"`. -/
def ssmTargetInstanceIds : String := "InstanceIds"

/-- Go: `ssmtypes.PingStatusOnline`, the string `"Online"`. -/
def pingStatusOnline : String := "Online"

/-! ## Data model -/

/-- One SSM agent-inventory entry (`ssmtypes.InstanceInformation`):
only the fields the code reads. -/
structure InstanceInformation where
  instanceId : String
  pingStatus : String
deriving Repr, DecidableEq

/-- One EC2 reservation (`ec2types.Reservation`): the code only reads
`len(reservation.Instances)`, so instances are kept as identifiers. -/
structure Reservation where
  instances : List String
deriving Repr, DecidableEq

/-- Response of `ec2Client.DescribeInstances`. -/
structure DescribeInstancesOutput where
  reservations : List Reservation
deriving Repr, DecidableEq

/-- Response of `ssmClient.DescribeInstanceInformation`. -/
structure DescribeInstanceInformationOutput where
  instanceInformationList : List InstanceInformation
deriving Repr, DecidableEq

/-- One per-instance invocation record (`ssmtypes.CommandInvocation`). -/
structure CommandInvocation where
  instanceId : String
  status : String
deriving Repr, DecidableEq

/-- An SSM command record (`ssmtypes.Command`): the orchestration only
reads `CommandId`, and the zero value `ssmtypes.Command{}` is modelled
by the empty identifier. -/
structure Command where
  commandId : String
deriving Repr, DecidableEq

/-- Go zero value `ssmtypes.Command{}`. -/
def emptyCommand : Command := { commandId := "" }

/-- An EC2 filter (`ec2types.Filter`). -/
structure Ec2Filter where
  name : String
  values : List String
deriving Repr, DecidableEq

/-- An SSM instance-information string filter
(`ssmtypes.InstanceInformationStringFilter`). -/
structure SsmStringFilter where
  key : String
  values : List String
deriving Repr, DecidableEq

/-- An SSM target (`ssmtypes.Target`). -/
structure SsmTarget where
  key : String
  values : List String
deriving Repr, DecidableEq

/-! ## Readiness waiter (`waitForTargetInstances`) -/

/-- Go lines 62-66: `ec2InstanceCount += len(reservation.Instances)`
summed over all reservations. -/
def ec2InstanceCount (out : DescribeInstancesOutput) : Nat :=
  (out.reservations.map (fun r => r.instances.length)).sum

/-- Go lines 68-74: count of agent-inventory entries whose
`PingStatus` equals `PingStatusOnline`. -/
def onlineInstanceCount (out : DescribeInstanceInformationOutput) : Nat :=
  out.instanceInformationList.countP (fun inst => inst.pingStatus == pingStatusOnline)

/-- The per-iteration success test of `waitForTargetInstances`
(Go lines 61-81): the iteration returns `nil` exactly when the
agent-inventory list is non-empty and the online count equals the
total EC2 instance count. -/
def readyCheck (ec2Out : DescribeInstancesOutput)
    (ssmOut : DescribeInstanceInformationOutput) : Bool :=
  decide (0 < ssmOut.instanceInformationList.length) &&
  decide (onlineInstanceCount ssmOut = ec2InstanceCount ec2Out)

/-- Result of a polling loop: the returned value or error, plus the
number of poll attempts (loop iterations) actually performed. -/
structure WaitResult where
  result : Except String Unit
  polls : Nat
deriving Repr

/-- The loop body of `waitForTargetInstances` (Go lines 42-84), with the
two AWS queries abstracted as functions of the iteration index.  `i` is
the current loop index, the final `Nat` the remaining iterations
(`waitTimeout/sleepTime - i` in Go).  A query error returns immediately
(Go lines 47-50 and 56-59); a ready check returns `nil` (line 79);
otherwise the loop sleeps and continues (line 83); an exhausted loop
returns the "not online" error (line 88). -/
def waitForTargetInstancesAux
    (qEc2 : Nat → Except String DescribeInstancesOutput)
    (qSsm : Nat → Except String DescribeInstanceInformationOutput)
    (i : Nat) : Nat → WaitResult
  | 0 => { result := Except.error "target instances are not online", polls := 0 }
  | fuel + 1 =>
    match qEc2 i with
    | Except.error e => { result := Except.error e, polls := 1 }
    | Except.ok ec2Out =>
      match qSsm i with
      | Except.error e => { result := Except.error e, polls := 1 }
      | Except.ok ssmOut =>
        if readyCheck ec2Out ssmOut then
          { result := Except.ok (), polls := 1 }
        else
          let rest := waitForTargetInstancesAux qEc2 qSsm (i + 1) fuel
          { result := rest.result, polls := rest.polls + 1 }

/-- Go `waitForTargetInstances`: `for i := 0; i < waitTimeout/sleepTime; i++`
(integer division, so `timeoutArg / sleepTime` iterations). -/
def waitForTargetInstances
    (qEc2 : Nat → Except String DescribeInstancesOutput)
    (qSsm : Nat → Except String DescribeInstanceInformationOutput)
    (timeoutArg : Nat) : WaitResult :=
  waitForTargetInstancesAux qEc2 qSsm 0 (timeoutArg / sleepTime)

/-! ## Invocation waiter (`waitForCommandInvocations`) -/

/-- Go line 111: status still in flight. -/
def isPendingStatus (s : String) : Bool :=
  s == "Pending" || s == "InProgress"

/-- Go line 113: terminal failure statuses. -/
def isTerminalFailureStatus (s : String) : Bool :=
  s == "Cancelled" || s == "TimedOut" || s == "Failed"

/-- Go `strings.ToLower` on the ASCII strings this code lower-cases:
each character mapped to its lower-case form. -/
def lowerString (s : String) : String :=
  String.mk (s.data.map Char.toLower)

/-- Go line 117: `fmt.Errorf("command invocation %s on %s instance",
strings.ToLower(string(invocation.Status)), *invocation.InstanceId)`. -/
def invocationFailureError (inv : CommandInvocation) : String :=
  "command invocation " ++ lowerString inv.status ++ " on " ++ inv.instanceId ++ " instance"

/-- The inner loop of `waitForCommandInvocations` (Go lines 108-119):
walks the invocation list counting `Pending`/`InProgress` entries, and
returns the failure error at the first `Cancelled`/`TimedOut`/`Failed`
entry.  Other statuses (e.g. `Success`) are skipped. -/
def countPendingInvocations : List CommandInvocation → Except String Nat
  | [] => Except.ok 0
  | inv :: rest =>
    if isPendingStatus inv.status then
      match countPendingInvocations rest with
      | Except.error e => Except.error e
      | Except.ok n => Except.ok (n + 1)
    else if isTerminalFailureStatus inv.status then
      Except.error (invocationFailureError inv)
    else
      countPendingInvocations rest

/-- The loop body of `waitForCommandInvocations` (Go lines 93-126), the
`ListCommandInvocations` call abstracted as a function of the iteration
index.  An empty list sleeps and continues (lines 103-106); a terminal
failure returns its error (line 117); zero pending entries returns `nil`
(lines 121-123); otherwise the loop sleeps and continues (line 125); an
exhausted loop returns the timeout error (line 130). -/
def waitForCommandInvocationsAux
    (q : Nat → Except String (List CommandInvocation))
    (i : Nat) : Nat → WaitResult
  | 0 => { result := Except.error "command invocations timed out", polls := 0 }
  | fuel + 1 =>
    match q i with
    | Except.error e => { result := Except.error e, polls := 1 }
    | Except.ok invocations =>
      if invocations.length = 0 then
        let rest := waitForCommandInvocationsAux q (i + 1) fuel
        { result := rest.result, polls := rest.polls + 1 }
      else
        match countPendingInvocations invocations with
        | Except.error e => { result := Except.error e, polls := 1 }
        | Except.ok pendingExecutionsCount =>
          if pendingExecutionsCount = 0 then
            { result := Except.ok (), polls := 1 }
          else
            let rest := waitForCommandInvocationsAux q (i + 1) fuel
            { result := rest.result, polls := rest.polls + 1 }

/-- Go `waitForCommandInvocations`: `for i := 0; i < *timeout/sleepTime; i++`. -/
def waitForCommandInvocations
    (q : Nat → Except String (List CommandInvocation))
    (timeoutArg : Nat) : WaitResult :=
  waitForCommandInvocationsAux q 0 (timeoutArg / sleepTime)

/-! ## Output collector (`printCommandOutput`) -/

/-- Go lines 160-163: the S3 listing key: `commandId` when the key
pointer is `nil`, `*keyPfx ++ "/" ++ commandId` whenever the pointer is
non-nil (also when it points at the empty string). -/
def objectListingKey (keyPfx : Option String) (commandId : String) : String :=
  match keyPfx with
  | none => commandId
  | some p => p ++ "/" ++ commandId

/-- Go lines 190-196: the chunks logged for one object body `msg`
(bytes modelled as characters): with `n := len(msg) / maxLogMsgSize`,
the slices `msg[i*maxLogMsgSize:(i+1)*maxLogMsgSize]` for `i < n`,
followed by the final slice `msg[n*maxLogMsgSize:]`. -/
def outputLogChunks (msg : List Char) : List (List Char) :=
  let n := msg.length / maxLogMsgSize
  (List.range n).map (fun i => (msg.drop (i * maxLogMsgSize)).take maxLogMsgSize)
    ++ [msg.drop (n * maxLogMsgSize)]

/-! ## Filter builder and orchestration (`RunCommand`, `GetCommand`) -/

/-- Go `strings.EqualFold` restricted to its behaviour on the ASCII
strings this code compares: equality up to case. -/
def equalFold (a b : String) : Bool := lowerString a == lowerString b

/-- Go lines 210-223 of `RunCommand`: builds the EC2 filter list and
the SSM filter list from the targets.  A target key equal (under
`EqualFold`) to `InstanceIds` has its EC2 filter name replaced by
`instance-id`; every target passes through unchanged as an SSM filter;
the state filter `instance-state-name = [pending, running]` is appended
to the EC2 filters. -/
def buildFilters (ssmTargets : List SsmTarget) : List Ec2Filter × List SsmStringFilter :=
  let ec2Filters := ssmTargets.map (fun target =>
    { name := if equalFold target.key ssmTargetInstanceIds then ec2FilterInstanceId
              else target.key,
      values := target.values : Ec2Filter })
  let ssmFilters := ssmTargets.map (fun target =>
    { key := target.key, values := target.values : SsmStringFilter })
  (ec2Filters ++ [{ name := ec2FilterInstanceStateName, values := ["pending", "running"] }],
   ssmFilters)

/-- Go `GetCommand` (lines 261-275): list the command records for the
identifier; propagate a query error; an empty list yields the zero
record with no error; otherwise the first record with no error.  The
`ListCommands` call is abstracted as a function of the identifier; the
returned pair mirrors Go's `(ssmtypes.Command, error)`. -/
def GetCommand (listCommands : String → Except String (List Command))
    (commandId : String) : Command × Option String :=
  match listCommands commandId with
  | Except.error e => (emptyCommand, some e)
  | Except.ok [] => (emptyCommand, none)
  | Except.ok (c :: _) => (c, none)

/-- The external responses `RunCommand` consumes, per API. -/
structure RunEnv where
  describeInstances : List Ec2Filter → Nat → Except String DescribeInstancesOutput
  describeInstanceInformation :
    List SsmStringFilter → Nat → Except String DescribeInstanceInformationOutput
  sendCommand : Except String Command
  listCommandInvocations : String → Nat → Except String (List CommandInvocation)
  collectOutput : Except String Unit
  listCommands : String → Except String (List Command)

/-- Outcome of `RunCommand`, mirroring Go's `(ssmtypes.Command, error)`
pair, instrumented with whether `printCommandOutput` was reached. -/
structure RunCommandResult where
  command : Command
  errorMsg : Option String
  outputCollectorRan : Bool
deriving Repr, DecidableEq

/-- Go `RunCommand` (lines 209-258): build the filters, wait for the
target instances with the fixed `waitTimeout`, send the command, wait
for the invocations with the caller's timeout, run the output collector
unconditionally (its error only logged, never returned), then return
the invocation waiter's error with a zero command record if it failed,
else the final `GetCommand` lookup. -/
def RunCommand (env : RunEnv) (ssmTargets : List SsmTarget)
    (executionTimeout : Nat) : RunCommandResult :=
  let filters := buildFilters ssmTargets
  match (waitForTargetInstances (env.describeInstances filters.1)
          (env.describeInstanceInformation filters.2) waitTimeout).result with
  | Except.error e => { command := emptyCommand, errorMsg := some e, outputCollectorRan := false }
  | Except.ok _ =>
    match env.sendCommand with
    | Except.error e => { command := emptyCommand, errorMsg := some e, outputCollectorRan := false }
    | Except.ok cmd =>
      let commandId := cmd.commandId
      let waitRes := waitForCommandInvocations
        (env.listCommandInvocations commandId) executionTimeout
      let _collected := env.collectOutput
      match waitRes.result with
      | Except.error e => { command := emptyCommand, errorMsg := some e, outputCollectorRan := true }
      | Except.ok _ =>
        let final := GetCommand env.listCommands commandId
        { command := final.1, errorMsg := final.2, outputCollectorRan := true }

/-! ## Shared lemmas -/

/-- The per-iteration readiness test, characterised. -/
theorem readyCheck_iff (ec2Out : DescribeInstancesOutput)
    (ssmOut : DescribeInstanceInformationOutput) :
    readyCheck ec2Out ssmOut = true ↔
      (ssmOut.instanceInformationList ≠ [] ∧
       onlineInstanceCount ssmOut = ec2InstanceCount ec2Out) := by
  simp [readyCheck, List.length_pos]

/-! ## Claims -/

/-- Claim C10: the object-listing key distinguishes an absent key
pointer from an empty-string one: `nil` yields the bare command id,
a present empty string yields a leading-slash key, and any present
string is prepended with a slash separator. -/
theorem object_listing_key_distinguishes (commandId : String) :
    objectListingKey none commandId = commandId ∧
    objectListingKey (some "") commandId = "/" ++ commandId ∧
    ∀ p : String, objectListingKey (some p) commandId = p ++ "/" ++ commandId := by
  refine ⟨rfl, ?_, fun p => rfl⟩
  simp [objectListingKey]

/-- Claim C9: the final status lookup queries command records by the
command identifier and returns the first found record with no error;
when the query returns no record, it returns the zero-value command
record with no error. -/
theorem get_command_lookup (listCommands : String → Except String (List Command))
    (commandId : String) :
    (listCommands commandId = Except.ok [] →
      GetCommand listCommands commandId = (emptyCommand, none)) ∧
    (∀ c rest, listCommands commandId = Except.ok (c :: rest) →
      GetCommand listCommands commandId = (c, none)) := by
  constructor
  · intro h
    simp [GetCommand, h]
  · intro c rest h
    simp [GetCommand, h]

/-- Witness for C9: a query returning no record yields the zero-value
record with no error. -/
theorem get_command_lookup_witness :
    GetCommand (fun _ => Except.ok []) "cmd-1" = (emptyCommand, none) :=
  (get_command_lookup (fun _ => Except.ok []) "cmd-1").1 rfl

/-- Claim C8: an Invocation Waiter iteration that lists no invocations
neither succeeds nor fails: the outcome is that of the remaining
iterations, and exactly one attempt of the same fixed per-iteration
budget is consumed. -/
theorem empty_invocation_list_retries
    (q : Nat → Except String (List CommandInvocation)) (i fuel : Nat)
    (hEnv : q i = Except.ok []) :
    waitForCommandInvocationsAux q i (fuel + 1) =
      { result := (waitForCommandInvocationsAux q (i + 1) fuel).result,
        polls := (waitForCommandInvocationsAux q (i + 1) fuel).polls + 1 } := by
  simp [waitForCommandInvocationsAux, hEnv]

/-- Witness for C8 at the environment that always lists no invocations. -/
theorem empty_invocation_list_retries_witness :
    waitForCommandInvocationsAux (fun _ => Except.ok []) 0 1 =
      { result := (waitForCommandInvocationsAux (fun _ => Except.ok []) 1 0).result,
        polls := (waitForCommandInvocationsAux (fun _ => Except.ok []) 1 0).polls + 1 } :=
  empty_invocation_list_retries (fun _ => Except.ok []) 0 0 rfl

/-- Counterexample to C2 as stated: at content length 0 (a multiple of
the chunk size) the code logs one (empty) chunk, while
`ceil(L/C) = (L + C - 1) / C` is `0`. -/
theorem output_chunking_cex :
    (outputLogChunks []).length = 1 ∧
    (List.length ([] : List Char) + maxLogMsgSize - 1) / maxLogMsgSize = 0 ∧
    (outputLogChunks []).length ≠
      (List.length ([] : List Char) + maxLogMsgSize - 1) / maxLogMsgSize := by
  decide

/-- Claim C2 (amended): for content length `L` and chunk size
`C = 65536`, the Output Collector logs exactly `L / C + 1` chunks (one
more than `ceil(L/C)` when `C` divides `L`); every chunk except the
last has length exactly `C`, and the last chunk is the suffix of
length `L mod C` (empty when `L` is a multiple of `C`). -/
theorem output_chunking (msg : List Char) :
    (outputLogChunks msg).length = msg.length / maxLogMsgSize + 1 ∧
    (∀ chunk ∈ (outputLogChunks msg).dropLast, chunk.length = maxLogMsgSize) ∧
    (outputLogChunks msg).getLast? =
      some (msg.drop (msg.length / maxLogMsgSize * maxLogMsgSize)) ∧
    (msg.drop (msg.length / maxLogMsgSize * maxLogMsgSize)).length =
      msg.length % maxLogMsgSize := by
  refine ⟨?_, ?_, ?_, ?_⟩
  · simp [outputLogChunks]
  · intro chunk hmem
    have hdrop : ((List.range (msg.length / maxLogMsgSize)).map
        (fun i => (msg.drop (i * maxLogMsgSize)).take maxLogMsgSize)
          ++ [msg.drop (msg.length / maxLogMsgSize * maxLogMsgSize)]).dropLast
        = (List.range (msg.length / maxLogMsgSize)).map
            (fun i => (msg.drop (i * maxLogMsgSize)).take maxLogMsgSize) := by
      simp
    rw [outputLogChunks] at hmem
    simp only [hdrop, List.mem_map, List.mem_range] at hmem
    obtain ⟨i, hi, rfl⟩ := hmem
    simp only [List.length_take, List.length_drop, maxLogMsgSize] at hi ⊢
    omega
  · simp [outputLogChunks]
  · simp only [List.length_drop, maxLogMsgSize]
    omega

/-- One unfolding of the readiness polling loop when both queries
answer. -/
theorem waitTargetAux_succ
    (qEc2 : Nat → Except String DescribeInstancesOutput)
    (qSsm : Nat → Except String DescribeInstanceInformationOutput)
    (i fuel : Nat) (ec2Out : DescribeInstancesOutput)
    (ssmOut : DescribeInstanceInformationOutput)
    (hEc2 : qEc2 i = Except.ok ec2Out) (hSsm : qSsm i = Except.ok ssmOut) :
    waitForTargetInstancesAux qEc2 qSsm i (fuel + 1) =
      if readyCheck ec2Out ssmOut then { result := Except.ok (), polls := 1 }
      else { result := (waitForTargetInstancesAux qEc2 qSsm (i + 1) fuel).result,
             polls := (waitForTargetInstancesAux qEc2 qSsm (i + 1) fuel).polls + 1 } := by
  simp [waitForTargetInstancesAux, hEc2, hSsm]

/-- Concrete compute inventory for the C1 counterexample: one
reservation with one instance. -/
def c1Ec2Out : DescribeInstancesOutput :=
  { reservations := [{ instances := ["i-1"] }] }

/-- Concrete agent inventory for the C1 counterexample: two entries, one
online and one with a lost connection. -/
def c1SsmOut : DescribeInstanceInformationOutput :=
  { instanceInformationList :=
      [{ instanceId := "i-1", pingStatus := "Online" },
       { instanceId := "i-2", pingStatus := "ConnectionLost" }] }

/-- Counterexample to C1 as stated: the readiness check passes (one
online entry against one compute instance) although the agent-inventory
count (2) differs from the compute-inventory count (1) and not every
agent entry is online. -/
theorem readiness_invariant_cex :
    readyCheck c1Ec2Out c1SsmOut = true ∧
    c1SsmOut.instanceInformationList.length ≠ ec2InstanceCount c1Ec2Out ∧
    ¬ ∀ inst ∈ c1SsmOut.instanceInformationList, inst.pingStatus = pingStatusOnline := by
  decide

/-- Claim C1 (amended): before proceeding past the readiness wait, the
waiter observes a non-empty agent inventory whose online-entry count
equals the compute-inventory count; that condition holds in particular
when the two inventory counts agree and every agent entry is online;
and a mismatch is treated as not-ready — the loop keeps waiting and
returns the outcome of the remaining iterations — rather than as an
error. -/
theorem readiness_proceed_condition
    (qEc2 : Nat → Except String DescribeInstancesOutput)
    (qSsm : Nat → Except String DescribeInstanceInformationOutput)
    (i fuel : Nat) (ec2Out : DescribeInstancesOutput)
    (ssmOut : DescribeInstanceInformationOutput)
    (hEc2 : qEc2 i = Except.ok ec2Out) (hSsm : qSsm i = Except.ok ssmOut) :
    (readyCheck ec2Out ssmOut = true →
      ssmOut.instanceInformationList ≠ [] ∧
      onlineInstanceCount ssmOut = ec2InstanceCount ec2Out) ∧
    ((ssmOut.instanceInformationList ≠ [] ∧
      ssmOut.instanceInformationList.length = ec2InstanceCount ec2Out ∧
      ∀ inst ∈ ssmOut.instanceInformationList, inst.pingStatus = pingStatusOnline) →
      readyCheck ec2Out ssmOut = true) ∧
    (readyCheck ec2Out ssmOut = false →
      waitForTargetInstancesAux qEc2 qSsm i (fuel + 1) =
        { result := (waitForTargetInstancesAux qEc2 qSsm (i + 1) fuel).result,
          polls := (waitForTargetInstancesAux qEc2 qSsm (i + 1) fuel).polls + 1 }) := by
  refine ⟨fun h => (readyCheck_iff _ _).1 h, ?_, ?_⟩
  · rintro ⟨hne, hlen, hall⟩
    apply (readyCheck_iff _ _).2
    refine ⟨hne, ?_⟩
    have hcnt : onlineInstanceCount ssmOut = ssmOut.instanceInformationList.length := by
      unfold onlineInstanceCount
      rw [List.countP_eq_length]
      intro a ha
      simp [hall a ha]
    rw [hcnt, hlen]
  · intro h
    have h1 := waitTargetAux_succ qEc2 qSsm i fuel ec2Out ssmOut hEc2 hSsm
    rw [if_neg (by simp [h])] at h1
    exact h1

/-- Witness for C1 at a concrete always-answering environment. -/
theorem readiness_proceed_condition_witness :
    (readyCheck c1Ec2Out c1SsmOut = true →
      c1SsmOut.instanceInformationList ≠ [] ∧
      onlineInstanceCount c1SsmOut = ec2InstanceCount c1Ec2Out) ∧
    ((c1SsmOut.instanceInformationList ≠ [] ∧
      c1SsmOut.instanceInformationList.length = ec2InstanceCount c1Ec2Out ∧
      ∀ inst ∈ c1SsmOut.instanceInformationList, inst.pingStatus = pingStatusOnline) →
      readyCheck c1Ec2Out c1SsmOut = true) ∧
    (readyCheck c1Ec2Out c1SsmOut = false →
      waitForTargetInstancesAux (fun _ => Except.ok c1Ec2Out)
          (fun _ => Except.ok c1SsmOut) 0 1 =
        { result := (waitForTargetInstancesAux (fun _ => Except.ok c1Ec2Out)
            (fun _ => Except.ok c1SsmOut) 1 0).result,
          polls := (waitForTargetInstancesAux (fun _ => Except.ok c1Ec2Out)
            (fun _ => Except.ok c1SsmOut) 1 0).polls + 1 }) :=
  readiness_proceed_condition (fun _ => Except.ok c1Ec2Out)
    (fun _ => Except.ok c1SsmOut) 0 0 c1Ec2Out c1SsmOut rfl rfl

/-- Claim C3: with target count `N` the compute inventory reports, a
single polling iteration of the Readiness Waiter succeeds exactly when
the agent-inventory list is non-empty and its online count equals `N`;
when that condition holds the full loop returns success immediately
(after one poll); and an online count kept below `N` never lets the
iteration succeed. -/
theorem readiness_single_iteration
    (qEc2 : Nat → Except String DescribeInstancesOutput)
    (qSsm : Nat → Except String DescribeInstanceInformationOutput)
    (i fuel : Nat) (ec2Out : DescribeInstancesOutput)
    (ssmOut : DescribeInstanceInformationOutput)
    (hEc2 : qEc2 i = Except.ok ec2Out) (hSsm : qSsm i = Except.ok ssmOut) :
    ((waitForTargetInstancesAux qEc2 qSsm i 1).result = Except.ok () ↔
      (ssmOut.instanceInformationList ≠ [] ∧
       onlineInstanceCount ssmOut = ec2InstanceCount ec2Out)) ∧
    ((ssmOut.instanceInformationList ≠ [] ∧
      onlineInstanceCount ssmOut = ec2InstanceCount ec2Out) →
      waitForTargetInstancesAux qEc2 qSsm i (fuel + 1) =
        { result := Except.ok (), polls := 1 }) ∧
    (onlineInstanceCount ssmOut < ec2InstanceCount ec2Out →
      (waitForTargetInstancesAux qEc2 qSsm i 1).result ≠ Except.ok ()) := by
  have h1 := waitTargetAux_succ qEc2 qSsm i 0 ec2Out ssmOut hEc2 hSsm
  have h2 := waitTargetAux_succ qEc2 qSsm i fuel ec2Out ssmOut hEc2 hSsm
  by_cases h : readyCheck ec2Out ssmOut
  · rw [if_pos h] at h1 h2
    have hc := (readyCheck_iff ec2Out ssmOut).1 h
    refine ⟨?_, fun _ => h2, ?_⟩
    · rw [h1]
      exact iff_of_true rfl hc
    · intro hlt
      exact absurd hc.2 (Nat.ne_of_lt hlt)
  · rw [if_neg (by simp [Bool.not_eq_true] at h; simp [h])] at h1
    have hc : ¬ (ssmOut.instanceInformationList ≠ [] ∧
        onlineInstanceCount ssmOut = ec2InstanceCount ec2Out) :=
      fun hx => h ((readyCheck_iff _ _).2 hx)
    refine ⟨?_, fun hx => absurd hx hc, ?_⟩
    · rw [h1]
      exact iff_of_false (by simp [waitForTargetInstancesAux]) hc
    · intro _
      rw [h1]
      simp [waitForTargetInstancesAux]

/-- Witness for C3: a single online instance against a one-instance
compute inventory makes the loop succeed on its first poll. -/
theorem readiness_single_iteration_witness :
    waitForTargetInstancesAux
        (fun _ => Except.ok { reservations := [{ instances := ["i-1"] }] })
        (fun _ => Except.ok { instanceInformationList :=
            [{ instanceId := "i-1", pingStatus := "Online" }] }) 0 60 =
      { result := Except.ok (), polls := 1 } :=
  (readiness_single_iteration
      (fun _ => Except.ok { reservations := [{ instances := ["i-1"] }] })
      (fun _ => Except.ok { instanceInformationList :=
          [{ instanceId := "i-1", pingStatus := "Online" }] })
      0 59 _ _ rfl rfl).2.1 (by decide)

/-- Walking the invocation list stops with the failure error of the
first terminal-failure entry whenever the list contains one, whatever
other statuses surround it. -/
theorem countPending_terminal (invs : List CommandInvocation)
    (inv : CommandInvocation) (hMem : inv ∈ invs)
    (hTerm : isTerminalFailureStatus inv.status = true) :
    ∃ invT, invT ∈ invs ∧ isTerminalFailureStatus invT.status = true ∧
      countPendingInvocations invs = Except.error (invocationFailureError invT) := by
  induction invs with
  | nil => cases hMem
  | cons a rest ih =>
    by_cases hp : isPendingStatus a.status = true
    · have hinvrest : inv ∈ rest := by
        rcases List.mem_cons.1 hMem with h | h
        · subst h
          exfalso
          simp [isPendingStatus] at hp
          rcases hp with h1 | h1 <;> simp [isTerminalFailureStatus, h1] at hTerm
        · exact h
      obtain ⟨t, ht1, ht2, ht3⟩ := ih hinvrest
      refine ⟨t, List.mem_cons_of_mem _ ht1, ht2, ?_⟩
      simp [countPendingInvocations, hp, ht3]
    · by_cases hterm : isTerminalFailureStatus a.status = true
      · exact ⟨a, List.mem_cons_self a rest, hterm,
          by simp [countPendingInvocations, hp, hterm]⟩
      · have hinvrest : inv ∈ rest := by
          rcases List.mem_cons.1 hMem with h | h
          · subst h; exact absurd hTerm hterm
          · exact h
        obtain ⟨t, ht1, ht2, ht3⟩ := ih hinvrest
        exact ⟨t, List.mem_cons_of_mem _ ht1, ht2,
          by simp [countPendingInvocations, hp, hterm, ht3]⟩

/-- Claim C4: whenever any listed invocation carries a terminal failure
status (`Cancelled`, `TimedOut` or `Failed`), the Invocation Waiter
fails on that very poll (one attempt consumed, no retry), with an error
naming the instance and the lower-cased terminal status — even if other
invocations are still pending. -/
theorem invocation_terminal_failure_fails_fast
    (q : Nat → Except String (List CommandInvocation)) (i fuel : Nat)
    (invs : List CommandInvocation) (inv : CommandInvocation)
    (hEnv : q i = Except.ok invs) (hMem : inv ∈ invs)
    (hTerm : isTerminalFailureStatus inv.status = true) :
    ∃ invT, invT ∈ invs ∧ isTerminalFailureStatus invT.status = true ∧
      waitForCommandInvocationsAux q i (fuel + 1) =
        { result := Except.error ("command invocation " ++ lowerString invT.status
            ++ " on " ++ invT.instanceId ++ " instance"),
          polls := 1 } := by
  obtain ⟨t, ht1, ht2, ht3⟩ := countPending_terminal invs inv hMem hTerm
  refine ⟨t, ht1, ht2, ?_⟩
  have hne : invs.length ≠ 0 := by
    cases invs with
    | nil => cases hMem
    | cons a r => simp
  simp [waitForCommandInvocationsAux, hEnv, hne, ht3, invocationFailureError]

/-- Witness for C4: a `Failed` invocation alongside a still-`Pending`
one fails the wait on the first poll. -/
theorem invocation_terminal_failure_fails_fast_witness :
    ∃ invT, invT ∈ [({ instanceId := "i-0", status := "Pending" } : CommandInvocation),
        { instanceId := "i-1", status := "Failed" }] ∧
      isTerminalFailureStatus invT.status = true ∧
      waitForCommandInvocationsAux
          (fun _ => Except.ok [{ instanceId := "i-0", status := "Pending" },
            { instanceId := "i-1", status := "Failed" }]) 0 60 =
        { result := Except.error ("command invocation " ++ lowerString invT.status
            ++ " on " ++ invT.instanceId ++ " instance"),
          polls := 1 } :=
  invocation_terminal_failure_fails_fast
    (fun _ => Except.ok [{ instanceId := "i-0", status := "Pending" },
      { instanceId := "i-1", status := "Failed" }]) 0 59 _
    { instanceId := "i-1", status := "Failed" } rfl (by decide) (by decide)

/-- A readiness polling loop whose every iteration answers but is never
ready burns all its fuel and ends with the "not online" error. -/
theorem waitTargetAux_never_ready
    (qEc2 : Nat → Except String DescribeInstancesOutput)
    (qSsm : Nat → Except String DescribeInstanceInformationOutput)
    (h : ∀ j, ∃ a b, qEc2 j = Except.ok a ∧ qSsm j = Except.ok b ∧
      readyCheck a b = false) :
    ∀ fuel i, waitForTargetInstancesAux qEc2 qSsm i fuel =
      { result := Except.error "target instances are not online", polls := fuel } := by
  intro fuel
  induction fuel with
  | zero => intro i; rfl
  | succ n ih =>
    intro i
    obtain ⟨a, b, h1, h2, h3⟩ := h i
    have hs := waitTargetAux_succ qEc2 qSsm i n a b h1 h2
    rw [if_neg (by simp [h3])] at hs
    rw [hs, ih (i + 1)]

/-- An invocation-list response on which the waiter neither succeeds nor
fails: empty, or with a pending entry (and no terminal failure before
it). -/
def invocationPollContinues (invs : List CommandInvocation) : Bool :=
  invs.length == 0 ||
  (match countPendingInvocations invs with
   | Except.ok n => !(n == 0)
   | Except.error _ => false)

/-- An invocation polling loop whose every iteration continues burns all
its fuel and ends with the timeout error. -/
theorem waitInvAux_always_continues
    (q : Nat → Except String (List CommandInvocation))
    (h : ∀ j, ∃ invs, q j = Except.ok invs ∧ invocationPollContinues invs = true) :
    ∀ fuel i, waitForCommandInvocationsAux q i fuel =
      { result := Except.error "command invocations timed out", polls := fuel } := by
  intro fuel
  induction fuel with
  | zero => intro i; rfl
  | succ n ih =>
    intro i
    obtain ⟨invs, h1, h2⟩ := h i
    by_cases hlen : invs.length = 0
    · simp [waitForCommandInvocationsAux, h1, hlen, ih (i + 1)]
    · simp only [invocationPollContinues, Bool.or_eq_true, beq_iff_eq,
        List.length_eq_zero] at h2
      rcases h2 with h2 | h2
      · rw [h2] at hlen
        simp at hlen
      · cases hcp : countPendingInvocations invs with
        | error e => rw [hcp] at h2; simp at h2
        | ok m =>
          rw [hcp] at h2
          have hm : ¬ m = 0 := by simpa using h2
          simp [waitForCommandInvocationsAux, h1, hlen, hcp, hm, ih (i + 1)]

/-- Claim C5: with the fixed 10-second interval, each polling waiter
performs exactly `floor(T/10)` poll attempts before returning its
timeout error when no attempt succeeds or fails terminally; with
`T = 600` that is 60 attempts, and with `T < 10` it is zero attempts
(`floor(T/10) = 0`), the timeout error returned without any query. -/
theorem poll_attempt_budget (T : Nat)
    (qEc2 : Nat → Except String DescribeInstancesOutput)
    (qSsm : Nat → Except String DescribeInstanceInformationOutput)
    (qInv : Nat → Except String (List CommandInvocation))
    (hT : ∀ j, ∃ a b, qEc2 j = Except.ok a ∧ qSsm j = Except.ok b ∧
      readyCheck a b = false)
    (hI : ∀ j, ∃ invs, qInv j = Except.ok invs ∧ invocationPollContinues invs = true) :
    sleepTime = 10 ∧
    waitForTargetInstances qEc2 qSsm T =
      { result := Except.error "target instances are not online",
        polls := T / sleepTime } ∧
    waitForCommandInvocations qInv T =
      { result := Except.error "command invocations timed out",
        polls := T / sleepTime } := by
  exact ⟨rfl, waitTargetAux_never_ready qEc2 qSsm hT (T / sleepTime) 0,
    waitInvAux_always_continues qInv hI (T / sleepTime) 0⟩

/-- Witness for C5: with `T = 600` both waiters time out after exactly
60 attempts; with `T = 5 < 10` the invocation waiter times out after
zero attempts. -/
theorem poll_attempt_budget_witness :
    waitForTargetInstances
        (fun _ => Except.ok { reservations := [{ instances := ["i-1"] }] })
        (fun _ => Except.ok { instanceInformationList := [] }) 600 =
      { result := Except.error "target instances are not online", polls := 60 } ∧
    waitForCommandInvocations (fun _ => Except.ok []) 600 =
      { result := Except.error "command invocations timed out", polls := 60 } ∧
    waitForCommandInvocations (fun _ => Except.ok []) 5 =
      { result := Except.error "command invocations timed out", polls := 0 } := by
  have h600 := poll_attempt_budget 600
    (fun _ => Except.ok { reservations := [{ instances := ["i-1"] }] })
    (fun _ => Except.ok { instanceInformationList := [] })
    (fun _ => Except.ok [])
    (fun _ => ⟨_, _, rfl, rfl, rfl⟩)
    (fun _ => ⟨[], rfl, rfl⟩)
  have h5 := poll_attempt_budget 5
    (fun _ => Except.ok { reservations := [{ instances := ["i-1"] }] })
    (fun _ => Except.ok { instanceInformationList := [] })
    (fun _ => Except.ok [])
    (fun _ => ⟨_, _, rfl, rfl, rfl⟩)
    (fun _ => ⟨[], rfl, rfl⟩)
  exact ⟨h600.2.1, h600.2.2, h5.2.2⟩

/-- Counterexample to C6 as stated: the key `"INSTANCEIDS"` is not the
reserved key `"InstanceIds"`, yet it does not pass through unchanged —
the case-insensitive `EqualFold` comparison maps it to the compute
filter's `instance-id` field. -/
theorem filter_builder_cex :
    "INSTANCEIDS" ≠ ssmTargetInstanceIds ∧
    (buildFilters [{ key := "INSTANCEIDS", values := ["i-1"] }]).1 =
      [{ name := ec2FilterInstanceId, values := ["i-1"] },
       { name := ec2FilterInstanceStateName, values := ["pending", "running"] }] := by
  decide

/-- Claim C6 (amended): the filter builder maps any target key equal to
the reserved key `InstanceIds` under case folding (`strings.EqualFold`)
to the compute filter's `instance-id` field, passes keys not matching
case-insensitively through unchanged, always keeps the original key in
the agent filter list, and appends the compute-state filter restricting
to pending/running; in particular the target spec
`InstanceIds = [i-1, i-2]` yields exactly the compute filters
`instance-id = [i-1, i-2]`, `instance-state-name = [pending, running]`
and the agent filter `InstanceIds = [i-1, i-2]`. -/
theorem filter_builder_mapping (ssmTargets : List SsmTarget)
    (target : SsmTarget) (hMem : target ∈ ssmTargets) :
    (equalFold target.key ssmTargetInstanceIds = true →
      ({ name := ec2FilterInstanceId, values := target.values } : Ec2Filter)
        ∈ (buildFilters ssmTargets).1) ∧
    (equalFold target.key ssmTargetInstanceIds = false →
      ({ name := target.key, values := target.values } : Ec2Filter)
        ∈ (buildFilters ssmTargets).1) ∧
    ({ key := target.key, values := target.values } : SsmStringFilter)
      ∈ (buildFilters ssmTargets).2 ∧
    (buildFilters ssmTargets).1.getLast? =
      some { name := ec2FilterInstanceStateName, values := ["pending", "running"] } ∧
    buildFilters [{ key := ssmTargetInstanceIds, values := ["i-1", "i-2"] }] =
      ([{ name := ec2FilterInstanceId, values := ["i-1", "i-2"] },
        { name := ec2FilterInstanceStateName, values := ["pending", "running"] }],
       [{ key := ssmTargetInstanceIds, values := ["i-1", "i-2"] }]) := by
  refine ⟨?_, ?_, ?_, ?_, ?_⟩
  · intro h
    refine List.mem_append_left _ ?_
    exact List.mem_map.2 ⟨target, hMem, by simp [h]⟩
  · intro h
    refine List.mem_append_left _ ?_
    exact List.mem_map.2 ⟨target, hMem, by simp [h]⟩
  · exact List.mem_map.2 ⟨target, hMem, rfl⟩
  · simp [buildFilters]
  · decide

/-- Witness for C6: a non-reserved key passes through unchanged into the
compute filter list. -/
theorem filter_builder_mapping_witness :
    ({ name := "Name", values := ["web"] } : Ec2Filter) ∈
      (buildFilters [{ key := "Name", values := ["web"] }]).1 :=
  (filter_builder_mapping [{ key := "Name", values := ["web"] }]
      { key := "Name", values := ["web"] } (by decide)).2.1 (by decide)

/-- Claim C7: once the readiness wait and the dispatch have succeeded,
the Output Collector is reached unconditionally after the Invocation
Waiter returns — whatever the collector's own outcome — and when the
Invocation Waiter failed, the orchestration returns exactly the
waiter's error with the zero-value command record, never merging any
output-collection error. -/
theorem run_command_collector_unconditional
    (env : RunEnv) (ssmTargets : List SsmTarget) (executionTimeout : Nat)
    (cmd : Command)
    (hReady : (waitForTargetInstances
        (env.describeInstances (buildFilters ssmTargets).1)
        (env.describeInstanceInformation (buildFilters ssmTargets).2)
        waitTimeout).result = Except.ok ())
    (hSend : env.sendCommand = Except.ok cmd) :
    (RunCommand env ssmTargets executionTimeout).outputCollectorRan = true ∧
    ∀ e, (waitForCommandInvocations (env.listCommandInvocations cmd.commandId)
        executionTimeout).result = Except.error e →
      RunCommand env ssmTargets executionTimeout =
        { command := emptyCommand, errorMsg := some e,
          outputCollectorRan := true } := by
  constructor
  · simp only [RunCommand, hReady, hSend]
    cases hw : (waitForCommandInvocations (env.listCommandInvocations cmd.commandId)
        executionTimeout).result with
    | error e => simp [hw]
    | ok u => simp [hw]
  · intro e hw
    simp [RunCommand, hReady, hSend, hw]

/-- Concrete environment for the C7 witness: readiness succeeds at once,
dispatch succeeds, the single invocation fails, and the output collector
itself errors — that error must not surface. -/
def c7Env : RunEnv :=
  { describeInstances := fun _ _ =>
      Except.ok { reservations := [{ instances := ["i-1"] }] },
    describeInstanceInformation := fun _ _ =>
      Except.ok { instanceInformationList :=
        [{ instanceId := "i-1", pingStatus := "Online" }] },
    sendCommand := Except.ok { commandId := "cmd-1" },
    listCommandInvocations := fun _ _ =>
      Except.ok [{ instanceId := "i-1", status := "Failed" }],
    collectOutput := Except.error "collector error",
    listCommands := fun _ => Except.ok [] }

/-- Witness for C7: the orchestration returns the waiter's error and the
zero record, with the collector reached, although the collector itself
errored. -/
theorem run_command_collector_unconditional_witness :
    RunCommand c7Env [{ key := "InstanceIds", values := ["i-1"] }] 600 =
      { command := emptyCommand,
        errorMsg := some "command invocation failed on i-1 instance",
        outputCollectorRan := true } :=
  (run_command_collector_unconditional c7Env
      [{ key := "InstanceIds", values := ["i-1"] }] 600
      { commandId := "cmd-1" } rfl rfl).2
    "command invocation failed on i-1 instance" rfl

end Awstools
